import Mathlib

/-!
Verification of the Gmail OAuth demo server against its specification.

The development shallowly embeds the JavaScript sources:

* `utils/tokenManager.js` — the Credential Store (token file persistence);
* the main server file (listing, sending, the health endpoint);
* `routes/delegatedEmailRoutes.js` + `services/emailService.js` — the
  delegated-access variant;
* `routes/emailRoutes.js` — the plain email routes.

JavaScript conventions used throughout the embedding:

* an absent value (`undefined`/`null`) is `Option.none`;
* JS truthiness of a string value: `none` and `some ""` are falsy;
* JS truthiness of a numeric value: `none` (absent) and `some 0` are falsy
  (`NaN`/`-0` are not modelled);
* a `fetch`/remote call that may throw is a `Except String` value supplied as
  a parameter (the remote API is an external collaborator);
* the token file is modelled as `Backing`: `missing` (ENOENT), `corrupt`
  (present but `JSON.parse` throws), or `good store` (parses to an object,
  modelled as an association list in insertion order, as JS objects are).
-/

/-- JS truthiness of an optional string: `undefined`, `null` and `""` are falsy. -/
def jsTruthy : Option String → Bool
  | none => false
  | some s => s ≠ ""

/-! ## Credential Store: `utils/tokenManager.js`

```js
class TokenManager {
  async saveTokens(userId, tokens) {
    try {
      let tokenData = {};
      try {
        const data = await fs.readFile(this.tokensFile, 'utf8');
        tokenData = JSON.parse(data);
      } catch (error) { console.log('Creating new tokens file...'); }
      tokenData[userId] = { ...tokens, createdAt: new Date().toISOString() };
      await fs.writeFile(this.tokensFile, JSON.stringify(tokenData, null, 2));
      return true;
    } catch (error) { throw new Error(`Failed to save tokens: ` + error.message); }
  }
  async loadTokens(userId) {
    try {
      const data = await fs.readFile(this.tokensFile, 'utf8');
      const tokenData = JSON.parse(data);
      return tokenData[userId] || null;
    } catch (error) { return null; }
  }
  isTokenExpired(tokens) {
    if (!tokens.expiry_date) return true;
    return Date.now() > tokens.expiry_date;
  }
}
```
-/
/-- One stored token record (the Google token shape plus the fields this code
reads/writes: `email` is read by `loadUserTokens`, `createdAt` is written by
`saveTokens`). -/
structure TokenRec where
  access_token : String := ""
  refresh_token : Option String := none
  expiry_date : Option Int := none
  email : Option String := none
  createdAt : Option String := none
deriving DecidableEq

/-- The parsed token file: a JS object mapping user ids to records, modelled as
an association list in insertion order. -/
abbrev TokenStore := List (String × TokenRec)

/-- State of the backing token file: absent, present-but-unparseable, or
parseable into a store. -/
inductive Backing where
  | missing
  | corrupt
  | good (store : TokenStore)
deriving DecidableEq

/-- Reading plus `JSON.parse`: succeeds exactly when the file exists and
parses (`missing` models ENOENT, `corrupt` models a `JSON.parse` throw). -/
def parseBacking : Backing → Option TokenStore
  | .good store => some store
  | _ => none

/-- JS object property read `tokenData[userId]`. -/
def lookupKey (userId : String) : TokenStore → Option TokenRec
  | [] => none
  | (k, v) :: rest => if k = userId then some v else lookupKey userId rest

/-- JS object property write `tokenData[userId] = r`: overwrite in place if
the key exists, otherwise append (JS object insertion order). -/
def setKey (userId : String) (r : TokenRec) : TokenStore → TokenStore
  | [] => [(userId, r)]
  | (k, v) :: rest => if k = userId then (k, r) :: rest else (k, v) :: setKey userId r rest

/-- The record actually stored: `{ ...tokens, createdAt: new Date().toISOString() }`
with the ISO timestamp taken at save time passed in as `nowIso`. -/
def withCreatedAt (tokens : TokenRec) (nowIso : String) : TokenRec :=
  { tokens with createdAt := some nowIso }

/-- `TokenManager.saveTokens`. The inner try/catch turns a missing OR corrupt
file into the empty object `{}`; the outer catch only sees the `writeFile`
failure, modelled by `writeError` (`some m` = the write throws with message
`m`). Returns the new backing file state on success. -/
def saveTokens (writeError : Option String) (fs : Backing) (userId : String)
    (tokens : TokenRec) (nowIso : String) : Except String Backing :=
  let tokenData := (parseBacking fs).getD []
  let tokenData2 := setKey userId (withCreatedAt tokens nowIso) tokenData
  match writeError with
  | none => .ok (.good tokenData2)
  | some m => .error ("Failed to save tokens: " ++ m)

/-- `TokenManager.loadTokens`: any read/parse failure is caught and returns
`null`; a parsed store returns `tokenData[userId] || null` (records are JS
objects, hence truthy, so `|| null` only converts `undefined` to `null`). -/
def loadTokens (fs : Backing) (userId : String) : Option TokenRec :=
  match parseBacking fs with
  | none => none
  | some tokenData => lookupKey userId tokenData

/-- `TokenManager.isTokenExpired`: `!tokens.expiry_date` is true for an absent
or zero (JS-falsy) expiry; otherwise the strict comparison `Date.now() > expiry_date`. -/
def isTokenExpired (tokens : TokenRec) (now : Int) : Bool :=
  match tokens.expiry_date with
  | none => true
  | some d => if d = 0 then true else decide (now > d)

/-! ## HTTP responses

A JSON response envelope: the HTTP status plus the body fields the handlers
actually emit (absent fields are `none`, matching JSON omission). -/
structure Resp where
  status : Nat
  success : Option Bool := none
  error : Option String := none
  details : Option String := none
  data : Option String := none
  authenticatedAs : Option String := none
  accessing : Option String := none
  messageId : Option String := none
  message : Option String := none
deriving DecidableEq

/-! ## Send endpoints (claim C7)

Main server file:
```js
app.post('/api/send-email', ensureAuthenticated, async (req, res) => {
  try {
    const { to, subject, message } = req.body;
    if (!to || !subject || !message) {
      return res.status(400).json({ success: false,
        error: 'Missing required fields: to, subject, message' });
    }
    const gmailService = new GmailService(req.user.accessToken);
    const result = await gmailService.sendEmail(to, subject, message);
    res.json({ success: true, messageId: result.id, message: 'Email sent successfully' });
  } catch (error) { res.status(500).json({ success: false, error: error.message }); }
});
```
The remote send is the parameter `sendResult` (`.ok id` = the API assigned id,
`.error e` = the wrapped provider failure); the returned `Bool` records
whether the provider client was invoked at all. -/
/-- The `/api/send-email` handler of the main server (it runs after the
`ensureAuthenticated` middleware). -/
def sendEmailRoute (toAddr subject message : Option String)
    (sendResult : Except String String) : Resp × Bool :=
  if !(jsTruthy toAddr) || !(jsTruthy subject) || !(jsTruthy message) then
    ({ status := 400, success := some false,
       error := some "Missing required fields: to, subject, message" }, false)
  else
    match sendResult with
    | .ok msgId => ({ status := 200, success := some true, messageId := some msgId,
                      message := some "Email sent successfully" }, true)
    | .error e => ({ status := 500, success := some false, error := some e }, true)

/-- The `routes/emailRoutes.js` `POST /send` handler (after the `requireAuth`
middleware). On passing validation it calls `emailService.sendEmail(...)`, but
`services/emailService.js` defines no `sendEmail` method, so the call throws a
TypeError which the catch converts to a 500 — still with no remote call made. -/
def sendRouteEmailRoutes (toAddr subject body fromField : Option String) : Resp × Bool :=
  if !(jsTruthy toAddr) || !(jsTruthy subject) || !(jsTruthy body) then
    ({ status := 400, error := some "Missing required fields: to, subject, body" }, false)
  else
    ({ status := 500, error := some "emailService.sendEmail is not a function" }, false)

/-! ## Environment validation and the health endpoint (claim C10)

Main server file:
```js
function validateEnvironment() {
  const required = ['CLIENT_ID', 'CLIENT_SECRET', 'SESSION_SECRET'];
  const missing = required.filter(key => !process.env[key]);
  if (missing.length > 0) { ...; process.exit(1); }
}
validateEnvironment();
...
app.get('/health', (req, res) => {
  res.json({ status: 'OK', timestamp: new Date().toISOString(),
    environment: {
      client_id_set: !!process.env.CLIENT_ID,
      client_secret_set: !!process.env.CLIENT_SECRET,
      session_secret_set: !!process.env.SESSION_SECRET } });
});
```
A config value set to the empty string counts as set-but-falsy in JS; such a
process exits in `validateEnvironment` before any route is served. -/
/-- The three required configuration values (`none` = variable unset). -/
structure Env where
  CLIENT_ID : Option String := none
  CLIENT_SECRET : Option String := none
  SESSION_SECRET : Option String := none
deriving DecidableEq

/-- Process-environment lookup for the keys `validateEnvironment` queries. -/
def envGet (e : Env) : String → Option String
  | "CLIENT_ID" => e.CLIENT_ID
  | "CLIENT_SECRET" => e.CLIENT_SECRET
  | "SESSION_SECRET" => e.SESSION_SECRET
  | _ => none

/-- The `missing` list of `validateEnvironment`. -/
def missingKeys (e : Env) : List String :=
  ["CLIENT_ID", "CLIENT_SECRET", "SESSION_SECRET"].filter
    (fun key => !(jsTruthy (envGet e key)))

/-- The process reaches `app.listen` (instead of `process.exit(1)`) iff the
`missing` list is empty. -/
def validateEnvironmentPasses (e : Env) : Bool :=
  !(decide ((missingKeys e).length > 0))

/-- The `/health` response body; the timestamp is the formatted current time
passed in as `ts`. -/
structure HealthBody where
  status : String
  timestamp : String
  client_id_set : Bool
  client_secret_set : Bool
  session_secret_set : Bool
deriving DecidableEq

/-- The `/health` handler. -/
def healthRoute (e : Env) (ts : String) : HealthBody :=
  { status := "OK"
  , timestamp := ts
  , client_id_set := jsTruthy e.CLIENT_ID
  , client_secret_set := jsTruthy e.CLIENT_SECRET
  , session_secret_set := jsTruthy e.SESSION_SECRET }

/-! ## Delegated-access variant (claim C3)

`routes/delegatedEmailRoutes.js` applies `loadUserTokens` (reads `userId` from
the query, loads the stored TokenSet, puts it on `req.userTokens` /
`req.userEmail`, and calls `next()` — it never calls
`emailService.initializeForUser` nor any other credential-setting function),
then `validateEmailAccess` (requires a `targetEmail` matching
`/^[^\s@]+@[^\s@]+\.[^\s@]+$/`), then the handler. `services/emailService.js`
keeps `this.gmail = null` from its constructor; `initializeForUser` is defined
but has no caller anywhere in the repository, so in a fresh process the
delegated read operations always hit the `Gmail client not initialized` guard.
The Gmail client slot is modelled as `Option Unit` (`none` = fresh process). -/
/-- Message of the guard in `getDelegatedEmails`. -/
def notInitFull : String := "Gmail client not initialized. Call initializeForUser() first."

/-- Message of the guard in `getDelegatedEmail` and `getDelegatedThreads`. -/
def notInitShort : String := "Gmail client not initialized."

/-- `EmailService.getDelegatedEmails` (part of `services/emailService.js`):
throws the initialization guard when `this.gmail` is null, otherwise forwards
the remote listing result, wrapping remote failures. -/
def getDelegatedEmails (gmail : Option Unit) (targetEmail : String)
    (remote : Except String String) : Except String String :=
  match gmail with
  | none => .error notInitFull
  | some _ =>
    match remote with
    | .ok d => .ok d
    | .error e => .error ("Failed to fetch emails from " ++ targetEmail ++ ": " ++ e)

/-- `EmailService.getDelegatedEmail`. -/
def getDelegatedEmail (gmail : Option Unit) (targetEmail messageId : String)
    (remote : Except String String) : Except String String :=
  match gmail with
  | none => .error notInitShort
  | some _ =>
    match remote with
    | .ok d => .ok d
    | .error e => .error ("Failed to fetch email from " ++ targetEmail ++ ": " ++ e)

/-- `EmailService.getDelegatedThreads`. -/
def getDelegatedThreads (gmail : Option Unit) (targetEmail : String)
    (remote : Except String String) : Except String String :=
  match gmail with
  | none => .error notInitShort
  | some _ =>
    match remote with
    | .ok d => .ok d
    | .error e => .error ("Failed to fetch threads from " ++ targetEmail ++ ": " ++ e)

/-- JS `\s` (the whitespace class used by the email regex). -/
def isJsSpace (c : Char) : Bool :=
  c = '\t' || c = '\n' || c = '\x0b' || c = '\x0c' || c = '\r' || c = ' ' ||
  c = ' ' || c = ' ' || (0x2000 ≤ c.toNat && c.toNat ≤ 0x200a) ||
  c = ' ' || c = ' ' || c = ' ' || c = ' ' ||
  c = '　' || c = '﻿'

/-- A character admitted by the class `[^\s@]`. -/
def emailOkChar (c : Char) : Bool := !(isJsSpace c) && c ≠ '@'

/-- Whether the list has a `.` at an interior position (not first, not last):
this is exactly when it can be split as `[^\s@]+ "." [^\s@]+` given all its
characters are already in `[^\s@]` (the class admits `.` itself). -/
def hasInteriorDot (l : List Char) : Bool := ((l.drop 1).dropLast).contains '.'

/-- The `validateEmailAccess` regex test `/^[^\s@]+@[^\s@]+\.[^\s@]+$/`: since
`[^\s@]` excludes `@`, a match is exactly a split into two nonempty `@`-free,
whitespace-free halves around a single `@`, with an interior dot in the second
half. -/
def emailRegexTest (s : String) : Bool :=
  match s.toList.splitOn '@' with
  | [l, r] => !(l.isEmpty) && !(r.isEmpty) && l.all emailOkChar
      && r.all emailOkChar && hasInteriorDot r
  | _ => false

/-- The `GET /inbox` delegated route: `loadUserTokens`, then
`validateEmailAccess`, then the handler calling `getDelegatedEmails`; a
handler failure becomes a 500 with the message in the `details` field. -/
def inboxRoute (store : Backing) (gmail : Option Unit)
    (userId targetEmail : Option String) (remote : Except String String) : Resp :=
  if !(jsTruthy userId) then
    { status := 400, error := some "User ID required. Use the userId from authentication." }
  else
    match loadTokens store (userId.getD "") with
    | none =>
      { status := 404
      , error := some "User not found or not authenticated. Please authenticate first." }
    | some tokens =>
      if !(jsTruthy targetEmail) then
        { status := 400, error := some "targetEmail parameter is required" }
      else
        let te := targetEmail.getD ""
        if !(emailRegexTest te) then
          { status := 400, error := some "Invalid email format" }
        else
          match getDelegatedEmails gmail te remote with
          | .ok d =>
            { status := 200, success := some true, authenticatedAs := tokens.email
            , accessing := some te, data := some d }
          | .error e =>
            { status := 500, error := some "Failed to fetch emails", details := some e }

/-- The `GET /emails/:messageId` delegated route; its catch responds with the
raw message in the `error` field (no `details`). -/
def singleEmailRoute (store : Backing) (gmail : Option Unit)
    (userId targetEmail : Option String) (messageId : String)
    (remote : Except String String) : Resp :=
  if !(jsTruthy userId) then
    { status := 400, error := some "User ID required. Use the userId from authentication." }
  else
    match loadTokens store (userId.getD "") with
    | none =>
      { status := 404
      , error := some "User not found or not authenticated. Please authenticate first." }
    | some tokens =>
      if !(jsTruthy targetEmail) then
        { status := 400, error := some "targetEmail parameter is required" }
      else
        let te := targetEmail.getD ""
        if !(emailRegexTest te) then
          { status := 400, error := some "Invalid email format" }
        else
          if messageId = "" || messageId.length < 5 then
            { status := 400, error := some "Valid messageId is required" }
          else
            match getDelegatedEmail gmail te messageId remote with
            | .ok d =>
              { status := 200, success := some true, authenticatedAs := tokens.email
              , accessing := some te, data := some d }
            | .error e => { status := 500, error := some e }

/-- The `GET /threads` delegated route; its catch responds with the raw
message in the `error` field (no `details`). -/
def threadsRoute (store : Backing) (gmail : Option Unit)
    (userId targetEmail : Option String) (remote : Except String String) : Resp :=
  if !(jsTruthy userId) then
    { status := 400, error := some "User ID required. Use the userId from authentication." }
  else
    match loadTokens store (userId.getD "") with
    | none =>
      { status := 404
      , error := some "User not found or not authenticated. Please authenticate first." }
    | some tokens =>
      if !(jsTruthy targetEmail) then
        { status := 400, error := some "targetEmail parameter is required" }
      else
        let te := targetEmail.getD ""
        if !(emailRegexTest te) then
          { status := 400, error := some "Invalid email format" }
        else
          match getDelegatedThreads gmail te remote with
          | .ok d =>
            { status := 200, success := some true, authenticatedAs := tokens.email
            , accessing := some te, data := some d }
          | .error e => { status := 500, error := some e }

/-! ## Listing messages (claim C6)

Two near-duplicate `GmailService.listEmails` implementations exist. The
enhanced one (main server file) wraps EACH detail fetch in its own try/catch
and pushes `{ id, error: message }` on failure; the basic one (the duplicate
server file) has NO per-item try/catch, so the first failing detail fetch
aborts the whole listing via the outer catch. The remote listing step is the
`listing` parameter (`.ok (some refs)` = page of ids, `.ok none` models a
response with no `messages` field, turned into `[]` by `|| []`); the per-id
detail fetch is the `fetch` parameter; `new Date(d).toLocaleString()` is the
locale/timezone-dependent `dateFmt` parameter. -/
/-- One element of `response.data.messages`. -/
structure MsgRef where
  id : String
  threadId : String
deriving DecidableEq

/-- The `email.data` part of a detail-fetch response the code reads. -/
structure FetchedEmail where
  payloadHeaders : List (String × String) := []
  snippet : Option String := none
  internalDate : Option String := none
  labelIds : Option (List String) := none
deriving DecidableEq

/-- JS `x || d` over an optional string: absent and empty string fall back. -/
def jsOr (o : Option String) (d : String) : String :=
  match o with
  | none => d
  | some s => if s = "" then d else s

/-- `headers.find(h => h.name === n)?.value`. -/
def findHeader (headers : List (String × String)) (n : String) : Option String :=
  (headers.find? (fun h => h.1 = n)).map (fun h => h.2)

/-- Scanning for the `>` closing an angle group: the regex piece `[^>]*>`
matches up to and including the FIRST `>`. Returns the remainder after it. -/
def findClose : List Char → Option (List Char)
  | [] => none
  | c :: rest => if c = '>' then some rest else findClose rest

/-- The global replace `from.replace(/<[^>]*>/g, '')`: every `<...>` group
(closed by the first following `>`) is removed; an unclosed `<` does not match
and is kept. -/
def stripAngles : List Char → List Char
  | [] => []
  | c :: rest =>
    if c = '<' then
      match hfc : findClose rest with
      | some rest2 => stripAngles rest2
      | none => c :: stripAngles rest
    else c :: stripAngles rest
termination_by l => l.length
decreasing_by
  · simp only [List.length_cons]
    have haux : ∀ (l r : List Char), findClose l = some r → r.length < l.length := by
      intro l
      induction l with
      | nil => intro r h; simp [findClose] at h
      | cons c0 rest0 ih =>
        intro r h
        by_cases hc0 : c0 = '>'
        · simp [findClose, hc0] at h
          subst h
          simp
        · simp [findClose, hc0] at h
          have := ih r h
          simp
          omega
    have := haux rest rest2 hfc
    omega
  · simp only [List.length_cons]; omega
  · simp only [List.length_cons]; omega

/-- JS `String.prototype.trim` on a char list (strips `\s` at both ends). -/
def jsTrimChars (l : List Char) : List Char :=
  ((l.dropWhile isJsSpace).reverse.dropWhile isJsSpace).reverse

/-- One formatted entry of the enhanced listing. -/
structure EmailSummary where
  id : String
  threadId : String
  subject : String
  fromClean : String
  toField : String
  date : String
  snippet : String
  internalDate : Option String
  labelIds : List String
deriving DecidableEq

/-- A position in the enhanced listing result: a full summary, or the
`{ id, error }` placeholder pushed when that item's detail fetch threw. -/
inductive EmailEntry where
  | summary (s : EmailSummary)
  | failed (id : String) (errorMessage : String)
deriving DecidableEq

/-- The summary the enhanced `listEmails` pushes for a successful detail
fetch (header extraction, `<...>` display-name cleanup, `||` defaults). -/
def mkSummary (dateFmt : String → String) (m : MsgRef) (d : FetchedEmail) : EmailSummary :=
  let fromRaw := jsOr (findHeader d.payloadHeaders "From") "Unknown Sender"
  { id := m.id
  , threadId := m.threadId
  , subject := jsOr (findHeader d.payloadHeaders "Subject") "No Subject"
  , fromClean := String.mk (jsTrimChars (stripAngles fromRaw.toList))
  , toField := jsOr (findHeader d.payloadHeaders "To") ""
  , date := dateFmt (jsOr (findHeader d.payloadHeaders "Date") "")
  , snippet := jsOr d.snippet "No preview available"
  , internalDate := d.internalDate
  , labelIds := d.labelIds.getD [] }

/-- The per-iteration body of the enhanced loop with its per-item try/catch. -/
def listItemEntry (dateFmt : String → String) (fetch : String → Except String FetchedEmail)
    (m : MsgRef) : EmailEntry :=
  match fetch m.id with
  | .ok d => .summary (mkSummary dateFmt m d)
  | .error e => .failed m.id e

/-- The enhanced `GmailService.listEmails` of the main server file. -/
def listEmails (dateFmt : String → String) (listing : Except String (Option (List MsgRef)))
    (fetch : String → Except String FetchedEmail) : Except String (List EmailEntry) :=
  match listing with
  | .error e => .error ("Failed to list emails: " ++ e)
  | .ok omsgs => .ok ((omsgs.getD []).map (listItemEntry dateFmt fetch))

/-- One formatted entry of the basic listing (raw `from`/`date`, no label or
recipient fields, snippet passed through). -/
structure BasicSummary where
  id : String
  threadId : String
  subject : String
  fromField : String
  date : String
  snippet : Option String
deriving DecidableEq

/-- The summary the basic `listEmails` pushes. -/
def mkBasicSummary (m : MsgRef) (d : FetchedEmail) : BasicSummary :=
  { id := m.id
  , threadId := m.threadId
  , subject := jsOr (findHeader d.payloadHeaders "Subject") "No Subject"
  , fromField := jsOr (findHeader d.payloadHeaders "From") "Unknown Sender"
  , date := jsOr (findHeader d.payloadHeaders "Date") ""
  , snippet := d.snippet }

/-- The basic loop: NO per-item try/catch, so the first failing detail fetch
propagates out. -/
def listEmailsBasicGo (fetch : String → Except String FetchedEmail) :
    List MsgRef → Except String (List BasicSummary)
  | [] => .ok []
  | m :: rest =>
    match fetch m.id with
    | .error e => .error e
    | .ok d =>
      match listEmailsBasicGo fetch rest with
      | .ok l => .ok (mkBasicSummary m d :: l)
      | .error e => .error e

/-- The basic `GmailService.listEmails` of the duplicate server file: any
failure inside the loop reaches the outer catch and fails the whole call. -/
def listEmailsBasic (listing : Except String (Option (List MsgRef)))
    (fetch : String → Except String FetchedEmail) : Except String (List BasicSummary) :=
  match listing with
  | .error e => .error ("Failed to list emails: " ++ e)
  | .ok omsgs =>
    match listEmailsBasicGo fetch (omsgs.getD []) with
    | .ok l => .ok l
    | .error e => .error ("Failed to list emails: " ++ e)

/-- The 3-message scenario of the claim: ids `m1 m2 m3`. -/
def msgsSample : List MsgRef := [⟨"m1", "t1"⟩, ⟨"m2", "t2"⟩, ⟨"m3", "t3"⟩]

/-- Detail data returned for the items whose fetch succeeds. -/
def fetchedSample : FetchedEmail :=
  { payloadHeaders := [("From", "Ada <ada@x.org>"), ("Subject", "hello"), ("Date", "d")]
  , snippet := some "snip" }

/-- The fetch of the scenario: the 2nd item's detail fetch throws `boom`. -/
def fetchSample : String → Except String FetchedEmail :=
  fun i => if i = "m2" then .error "boom" else .ok fetchedSample

/-! ## Raw message building and base64url encoding (claim C8)

Main server file:
```js
async sendEmail(to, subject, message) {
  const emailLines = [`To: ` + to, 'Content-Type: text/plain; charset="UTF-8"',
    'MIME-Version: 1.0', `Subject: ` + subject, '', message];
  const email = emailLines.join('\r\n').trim();
  const base64EncodedEmail = Buffer.from(email).toString('base64')
    .replace(/\+/g, '-').replace(/\//g, '_');
  ... send({ requestBody: { raw: base64EncodedEmail } });
}
```
Delegated variant (`services/emailService.js`, `sendEmailAsDelegate`): the
lines are `From:`, `To:`, `Content-Type: text/html; charset=utf-8`,
`MIME-Version: 1.0`, `Subject:`, `''`, body, joined with `'\n'`, NOT trimmed,
and after the two replacements the trailing `=` padding is stripped
(`.replace(/=+$/, '')`).

The embedding works on byte lists (`Buffer.from` of the joined string). The
inputs are constrained to ASCII bytes (`< 128`), for which JS
`String.prototype.trim` coincides with stripping the ASCII whitespace bytes
and UTF-8 encoding is the identity on code points; the header literals are
ASCII. Base64 of bytes is modelled chunk-wise; `b1 / 4 = b1 >> 2`,
`b1 % 4 * 16 = (b1 & 3) << 4`, and so on. -/
/-- The standard base64 alphabet in index order. -/
def b64Alphabet : List Char :=
  "ABCDEFGHIJKLMNOPQRSTUVWXYZabcdefghijklmnopqrstuvwxyz0123456789+/".toList

/-- The alphabet character of a 6-bit value. -/
def b64Char (n : Nat) : Char := b64Alphabet.getD n 'A'

/-- The 6-bit value of an alphabet character. -/
def b64Index (c : Char) : Nat := b64Alphabet.indexOf c

/-- Standard base64 of a byte list, with `=` padding, as produced by
`Buffer.toString('base64')`. -/
def base64Encode : List Nat → List Char
  | [] => []
  | [b1] => [b64Char (b1 / 4), b64Char (b1 % 4 * 16), '=', '=']
  | [b1, b2] => [b64Char (b1 / 4), b64Char (b1 % 4 * 16 + b2 / 16), b64Char (b2 % 16 * 4), '=']
  | b1 :: b2 :: b3 :: rest =>
    b64Char (b1 / 4) :: b64Char (b1 % 4 * 16 + b2 / 16) ::
      b64Char (b2 % 16 * 4 + b3 / 64) :: b64Char (b3 % 64) :: base64Encode rest

/-- Base64 decoding of the padding-free character groups (a final group of 3
or 2 characters yields 2 or 1 bytes). -/
def base64DecodeGroups : List Char → List Nat
  | c1 :: c2 :: c3 :: c4 :: rest =>
    (b64Index c1 * 4 + b64Index c2 / 16) ::
      (b64Index c2 % 16 * 16 + b64Index c3 / 4) ::
      (b64Index c3 % 4 * 64 + b64Index c4) :: base64DecodeGroups rest
  | [c1, c2, c3] =>
    [b64Index c1 * 4 + b64Index c2 / 16, b64Index c2 % 16 * 16 + b64Index c3 / 4]
  | [c1, c2] => [b64Index c1 * 4 + b64Index c2 / 16]
  | _ => []

/-- Base64 decoding, tolerant of present or stripped `=` padding. -/
def base64Decode (s : List Char) : List Nat :=
  base64DecodeGroups (s.filter (fun c => c ≠ '='))

/-- The character substitution of `.replace(/\+/g, '-').replace(/\//g, '_')`
(the first replace introduces no `/`, so the composition is one map). -/
def b64UrlChar (c : Char) : Char := if c = '+' then '-' else if c = '/' then '_' else c

/-- Reversing the substitution: `-` back to `+` and `_` back to `/`. -/
def b64UrlUnChar (c : Char) : Char := if c = '-' then '+' else if c = '_' then '/' else c

/-- Applying both replacements to an encoded payload. -/
def toBase64Url (l : List Char) : List Char := l.map b64UrlChar

/-- Reversing both replacements. -/
def reverseB64Url (l : List Char) : List Char := l.map b64UrlUnChar

/-- The padding strip `.replace(/=+$/, '')` of the delegated send path. -/
def stripPadding (l : List Char) : List Char :=
  (l.reverse.dropWhile (fun c => c = '=')).reverse

/-- UTF-8 bytes of an ASCII string literal (identity on code points below 128). -/
def asciiBytes (s : String) : List Nat := s.toList.map Char.toNat

/-- The ASCII whitespace bytes stripped by JS `trim` (the non-ASCII JS
whitespace code points do not occur in ASCII byte strings). -/
def isWsByte (b : Nat) : Bool :=
  b = 9 || b = 10 || b = 11 || b = 12 || b = 13 || b = 32

/-- JS `String.prototype.trim` on an ASCII byte string. -/
def jsTrimBytes (l : List Nat) : List Nat :=
  ((l.dropWhile isWsByte).reverse.dropWhile isWsByte).reverse

/-- The `emailLines.join('\r\n').trim()` of the main send path, flattened:
`To: ` ++ to ++ CRLF ++ the two fixed header lines ++ `Subject: ` ++ subject
++ CRLF ++ the empty line ++ CRLF ++ body, the WHOLE string trimmed. -/
def emailTextMain (toB subjB msgB : List Nat) : List Nat :=
  jsTrimBytes (asciiBytes "To: " ++ toB ++
    asciiBytes "\r\nContent-Type: text/plain; charset=\"UTF-8\"\r\nMIME-Version: 1.0\r\nSubject: " ++
    subjB ++ asciiBytes "\r\n\r\n" ++ msgB)

/-- The `raw` payload submitted by the main send path. -/
def rawMain (toB subjB msgB : List Nat) : List Char :=
  toBase64Url (base64Encode (emailTextMain toB subjB msgB))

/-- The message of the delegated send path: an additional leading `From:`
line, LF separators, HTML content type, and NO trim. -/
def emailTextDelegate (fromB toB subjB bodyB : List Nat) : List Nat :=
  asciiBytes "From: " ++ fromB ++ asciiBytes "\nTo: " ++ toB ++
    asciiBytes "\nContent-Type: text/html; charset=utf-8\nMIME-Version: 1.0\nSubject: " ++
    subjB ++ asciiBytes "\n\n" ++ bodyB

/-- The `raw` payload submitted by the delegated send path (padding stripped). -/
def rawDelegate (fromB toB subjB bodyB : List Nat) : List Char :=
  stripPadding (toBase64Url (base64Encode (emailTextDelegate fromB toB subjB bodyB)))

/-! ### Store lemmas -/
/-- Looking up the key just written returns the written record. -/
theorem lookupKey_setKey_self (u : String) (r : TokenRec) :
    ∀ store : TokenStore, lookupKey u (setKey u r store) = some r := by
  intro store
  induction store with
  | nil => simp [setKey, lookupKey]
  | cons hd tl ih =>
    obtain ⟨k, v⟩ := hd
    by_cases hk : k = u
    · simp [setKey, lookupKey, hk]
    · simp [setKey, lookupKey, hk, ih]

/-- Writing one key leaves every other key unchanged. -/
theorem lookupKey_setKey_ne (u k : String) (r : TokenRec) (hne : k ≠ u) :
    ∀ store : TokenStore, lookupKey k (setKey u r store) = lookupKey k store := by
  intro store
  induction store with
  | nil =>
    have : u ≠ k := fun h => hne h.symm
    simp [setKey, lookupKey, this]
  | cons hd tl ih =>
    obtain ⟨k0, v0⟩ := hd
    have huk : u ≠ k := fun h => hne h.symm
    by_cases hk0 : k0 = u
    · simp [setKey, lookupKey, hk0, huk]
    · by_cases hk0k : k0 = k
      · simp [setKey, lookupKey, hk0, hk0k, hne]
      · simp [setKey, lookupKey, hk0, hk0k, ih]

/-! ## Claims about the Credential Store -/
/-- C1 (counterexample). The claim says `isExpired` returns true whenever the
current time is greater than OR EQUAL to the expiry timestamp, in particular
true for a TokenSet whose expiry equals the current instant. The code compares
with strict `>` (`Date.now() > tokens.expiry_date`), so at `now = expiry = 5`
it returns false, refuting the claim at this concrete input. -/
theorem c1_counterexample :
    isTokenExpired { expiry_date := some 5 } 5 = false ∧ (5 : Int) ≥ 5 := by
  constructor
  · decide
  · decide

/-- C1 (amended). `isTokenExpired` is a pure function of the token and the
current time; it returns true iff the expiry is absent, or zero (JS-falsy,
hence treated like absent), or STRICTLY less than the current time. In
particular: absent expiry gives true, a nonzero expiry equal to the current
instant gives false (this is where the original claim is off by one), a past
expiry gives true, and a strictly future expiry gives false for nonnegative
current time. -/
theorem c1_isTokenExpired_strict (t : TokenRec) (now : Int) :
    (isTokenExpired t now = true ↔
      (t.expiry_date = none ∨ t.expiry_date = some 0 ∨
        ∃ d, t.expiry_date = some d ∧ d < now))
    ∧ (t.expiry_date = none → isTokenExpired t now = true)
    ∧ (∀ d, t.expiry_date = some d → d ≠ 0 → now = d → isTokenExpired t now = false)
    ∧ (∀ d, t.expiry_date = some d → d < now → isTokenExpired t now = true)
    ∧ (∀ d, t.expiry_date = some d → now < d → 0 ≤ now → isTokenExpired t now = false) := by
  refine ⟨?_, ?_, ?_, ?_, ?_⟩
  · cases he : t.expiry_date with
    | none => simp [isTokenExpired, he]
    | some d =>
      by_cases hd : d = 0
      · subst hd; simp [isTokenExpired, he]
      · simp only [isTokenExpired, he, if_neg hd]
        constructor
        · intro h
          right; right
          exact ⟨d, rfl, by simpa [gt_iff_lt] using of_decide_eq_true h⟩
        · rintro (h | h | ⟨d2, hd2, hlt⟩)
          · exact absurd h (by simp)
          · exact absurd (Option.some.inj h) hd
          · have : d2 = d := (Option.some.inj hd2).symm
            subst this
            exact decide_eq_true (by simpa [gt_iff_lt] using hlt)
  · intro h; simp [isTokenExpired, h]
  · intro d hd hne hnow
    subst hnow
    simp [isTokenExpired, hd, hne]
  · intro d hd hlt
    by_cases hz : d = 0
    · simp [isTokenExpired, hd, hz]
    · simp only [isTokenExpired, hd, if_neg hz]
      exact decide_eq_true (by simpa [gt_iff_lt] using hlt)
  · intro d hd hlt hge
    have hz : d ≠ 0 := by omega
    simp only [isTokenExpired, hd, if_neg hz]
    simp [gt_iff_lt]; omega

/-- C1 (witness for the amended theorem), instantiated at a token whose expiry
7 is strictly in the future of the current time 3. -/
theorem c1_isTokenExpired_strict_witness :
    isTokenExpired { expiry_date := some 7 } 3 = false :=
  (c1_isTokenExpired_strict { expiry_date := some 7 } 3).2.2.2.2 7 rfl
    (by decide) (by decide)

/-- C2 (counterexample). The claim says `save` over a CORRUPT backing store
fails with a PersistenceError and does not silently replace the store. In the
code, the inner try/catch around `readFile` + `JSON.parse` also swallows the
parse failure of corrupt content and proceeds from the empty object, so the
save SUCCEEDS and the resulting store holds only the new record. -/
theorem c2_counterexample :
    saveTokens none Backing.corrupt "u1" { access_token := "a1" } "2026-01-01T00:00:00.000Z"
      = .ok (.good
        [("u1", { access_token := "a1", createdAt := some "2026-01-01T00:00:00.000Z" })]) := by
  rfl

/-- C2 (amended). `saveTokens` fails (with the wrapped `Failed to save tokens:`
error) exactly when the backing file cannot be WRITTEN; unreadable or corrupt
existing content is silently treated as the empty store, so a save over a
corrupt store succeeds and produces a store containing only the new record. -/
theorem c2_save_write_failure_only (userId : String) (t : TokenRec) (nowIso : String) :
    (saveTokens none .corrupt userId t nowIso
        = .ok (.good [(userId, withCreatedAt t nowIso)]))
    ∧ (∀ m fs, saveTokens (some m) fs userId t nowIso
        = .error ("Failed to save tokens: " ++ m))
    ∧ (∀ fs, ∃ b, saveTokens none fs userId t nowIso = .ok b) := by
  refine ⟨rfl, fun m fs => rfl, fun fs => ⟨_, rfl⟩⟩

/-- C4. Round trip: a successful `saveTokens` followed by `loadTokens` for the
same user id returns exactly the saved TokenSet augmented with the `createdAt`
ISO timestamp taken at save time; all token fields are preserved and
`isTokenExpired` on the stored record agrees with `isTokenExpired` on the
original (the added `createdAt` does not affect expiry). Proved for EVERY
backing state, which covers the claimed readable-or-absent case. -/
theorem c4_save_load_roundtrip (fs : Backing) (userId : String) (t : TokenRec)
    (nowIso : String) (b : Backing) (now : Int)
    (hsave : saveTokens none fs userId t nowIso = .ok b) :
    loadTokens b userId = some (withCreatedAt t nowIso)
    ∧ (withCreatedAt t nowIso).access_token = t.access_token
    ∧ (withCreatedAt t nowIso).refresh_token = t.refresh_token
    ∧ (withCreatedAt t nowIso).expiry_date = t.expiry_date
    ∧ (withCreatedAt t nowIso).createdAt = some nowIso
    ∧ isTokenExpired (withCreatedAt t nowIso) now = isTokenExpired t now := by
  have hb : b = .good (setKey userId (withCreatedAt t nowIso) ((parseBacking fs).getD [])) := by
    simpa [saveTokens] using hsave.symm
  subst hb
  refine ⟨?_, rfl, rfl, rfl, rfl, rfl⟩
  simp [loadTokens, parseBacking, lookupKey_setKey_self]

/-- C4 (witness): saving `{accessToken: "a1", expiry: now+3600000}` at time 0
into an absent store and loading it back. -/
theorem c4_save_load_roundtrip_witness :
    loadTokens (.good [("u1", withCreatedAt { access_token := "a1", expiry_date := some 3600000 } "1970-01-01T00:00:00.000Z")]) "u1"
      = some (withCreatedAt { access_token := "a1", expiry_date := some 3600000 } "1970-01-01T00:00:00.000Z")
    ∧ isTokenExpired (withCreatedAt { access_token := "a1", expiry_date := some 3600000 } "1970-01-01T00:00:00.000Z") 0
      = isTokenExpired { access_token := "a1", expiry_date := some 3600000 } 0 :=
  ⟨(c4_save_load_roundtrip .missing "u1" { access_token := "a1", expiry_date := some 3600000 }
      "1970-01-01T00:00:00.000Z" _ 0 rfl).1,
   (c4_save_load_roundtrip .missing "u1" { access_token := "a1", expiry_date := some 3600000 }
      "1970-01-01T00:00:00.000Z" _ 0 rfl).2.2.2.2.2⟩

/-- C5 (counterexample). The claim says `load` over corrupt backing content
fails with a PersistenceError rather than returning not-found. The code
catches EVERY failure (including the `JSON.parse` throw on corrupt content)
and returns `null`: over a corrupt store, `loadTokens` returns the very same
not-found result as over a missing store, and its Option result type carries
no error case at all. -/
theorem c5_counterexample :
    loadTokens Backing.corrupt "u1" = none
    ∧ loadTokens Backing.missing "u1" = none := ⟨rfl, rfl⟩

/-- C5 (amended). `loadTokens` never raises: an id never saved yields
not-found, a missing backing file yields not-found, and corrupt backing
content ALSO yields not-found (indistinguishable from a missing record) rather
than a PersistenceError; on a parseable store it returns exactly the stored
record for the id, if any. -/
theorem c5_load_never_fails (userId : String) (store : TokenStore) :
    loadTokens .missing userId = none
    ∧ loadTokens .corrupt userId = none
    ∧ loadTokens (.good store) userId = lookupKey userId store := ⟨rfl, rfl, rfl⟩

/-- C9. Frame property: a successful `saveTokens` for user `u` leaves the
record of every other user `k` unchanged — `loadTokens` for `k` returns the
same result (same record or same not-found) before and after the save. Proved
for every backing state, which covers the claimed well-formed case. -/
theorem c9_save_frame (u k : String) (t : TokenRec) (fs : Backing)
    (nowIso : String) (b : Backing) (hne : k ≠ u)
    (hsave : saveTokens none fs u t nowIso = .ok b) :
    loadTokens b k = loadTokens fs k := by
  have hb : b = .good (setKey u (withCreatedAt t nowIso) ((parseBacking fs).getD [])) := by
    simpa [saveTokens] using hsave.symm
  subst hb
  cases fs with
  | missing =>
    simp [loadTokens, parseBacking, lookupKey_setKey_ne u k _ hne]
    simp [lookupKey]
  | corrupt =>
    simp [loadTokens, parseBacking, lookupKey_setKey_ne u k _ hne]
    simp [lookupKey]
  | good store =>
    simp [loadTokens, parseBacking, lookupKey_setKey_ne u k _ hne]

/-- C9 (witness): saving for `u1` over a store holding `u2` leaves the `u2`
record readable unchanged. -/
theorem c9_save_frame_witness :
    loadTokens (.good (setKey "u1" (withCreatedAt { access_token := "a1" } "t0")
        [("u2", { access_token := "a2" })])) "u2"
      = loadTokens (.good [("u2", { access_token := "a2" })]) "u2" :=
  c9_save_frame "u1" "u2" { access_token := "a1" }
    (.good [("u2", { access_token := "a2" })]) "t0" _ (by decide) rfl

/-- C7. A send request missing the recipient, the subject, or the message body
fails with the ValidationError-shaped 400 response and performs no remote call
(the provider client is never invoked), on both send endpoints. The code is
even stricter — a JS-falsy empty string also 400s — and absent fields are the
claimed case. -/
theorem c7_send_missing_field_validation (toAddr subject message fromField : Option String)
    (sendResult : Except String String)
    (hmiss : toAddr = none ∨ subject = none ∨ message = none) :
    sendEmailRoute toAddr subject message sendResult
      = ({ status := 400, success := some false,
           error := some "Missing required fields: to, subject, message" }, false)
    ∧ sendRouteEmailRoutes toAddr subject message fromField
      = ({ status := 400, error := some "Missing required fields: to, subject, body" }, false) := by
  rcases hmiss with h | h | h <;> subst h <;>
    simp [sendEmailRoute, sendRouteEmailRoutes, jsTruthy]

/-- C7 (witness): a request with the recipient absent. -/
theorem c7_send_missing_field_validation_witness :
    sendEmailRoute none (some "s") (some "m") (.ok "id1")
      = ({ status := 400, success := some false,
           error := some "Missing required fields: to, subject, message" }, false)
    ∧ sendRouteEmailRoutes none (some "s") (some "m") (some "f")
      = ({ status := 400, error := some "Missing required fields: to, subject, body" }, false) :=
  c7_send_missing_field_validation none (some "s") (some "m") (some "f") (.ok "id1")
    (Or.inl rfl)

/-- C10. The liveness endpoint never reveals configuration contents: any two
environment configurations that agree on the presence of each required value
and under which the endpoint serves at all (the process only reaches its
routes when `validateEnvironment` passes, i.e. all three values are truthy)
produce identical response bodies apart from the timestamp (made explicit by
fixing the same `ts`). In a serving process all three presence flags are
necessarily `true`, independent of the values. -/
theorem c10_health_reveals_no_values (e1 e2 : Env) (ts : String)
    (hp1 : e1.CLIENT_ID.isSome = e2.CLIENT_ID.isSome)
    (hp2 : e1.CLIENT_SECRET.isSome = e2.CLIENT_SECRET.isSome)
    (hp3 : e1.SESSION_SECRET.isSome = e2.SESSION_SECRET.isSome)
    (hv1 : validateEnvironmentPasses e1 = true)
    (hv2 : validateEnvironmentPasses e2 = true) :
    healthRoute e1 ts = healthRoute e2 ts := by
  simp only [validateEnvironmentPasses, missingKeys, envGet, List.filter,
    Bool.not_eq_true', decide_eq_false_iff_not] at hv1 hv2
  have h1 : jsTruthy e1.CLIENT_ID = true ∧ jsTruthy e1.CLIENT_SECRET = true
      ∧ jsTruthy e1.SESSION_SECRET = true := by
    by_cases a : jsTruthy e1.CLIENT_ID <;>
      by_cases b : jsTruthy e1.CLIENT_SECRET <;>
        by_cases c : jsTruthy e1.SESSION_SECRET <;>
          simp_all
  have h2 : jsTruthy e2.CLIENT_ID = true ∧ jsTruthy e2.CLIENT_SECRET = true
      ∧ jsTruthy e2.SESSION_SECRET = true := by
    by_cases a : jsTruthy e2.CLIENT_ID <;>
      by_cases b : jsTruthy e2.CLIENT_SECRET <;>
        by_cases c : jsTruthy e2.SESSION_SECRET <;>
          simp_all
  simp [healthRoute, h1.1, h1.2.1, h1.2.2, h2.1, h2.2.1, h2.2.2]

/-- C10 (witness): two configurations with entirely different secret values
produce the same health body. -/
theorem c10_health_reveals_no_values_witness :
    healthRoute { CLIENT_ID := some "idA", CLIENT_SECRET := some "secretA",
                  SESSION_SECRET := some "sessA" } "2026-01-01T00:00:00.000Z"
      = healthRoute { CLIENT_ID := some "idB", CLIENT_SECRET := some "secretB",
                      SESSION_SECRET := some "sessB" } "2026-01-01T00:00:00.000Z" :=
  c10_health_reveals_no_values
    { CLIENT_ID := some "idA", CLIENT_SECRET := some "secretA", SESSION_SECRET := some "sessA" }
    { CLIENT_ID := some "idB", CLIENT_SECRET := some "secretB", SESSION_SECRET := some "sessB" }
    "2026-01-01T00:00:00.000Z" rfl rfl rfl (by decide) (by decide)

/-- C3. In a fresh process (Gmail client slot still `null`), every request to
the delegated inbox, single-email and threads routes that carries a valid
`userId` (a stored token exists, of ANY validity) and a well-formed
`targetEmail` (and, for the single-email route, a `messageId` passing its
length check) fails with a 500 response carrying the `Gmail client not
initialized` error — in the `details` field for the inbox route and in the
`error` field for the other two — because `loadUserTokens` only stores the
TokenSet on the request and nothing ever calls
`EmailService.initializeForUser`. -/
theorem c3_delegated_routes_not_initialized (store : Backing) (uid te msgId : String)
    (tok : TokenRec) (remote : Except String String)
    (huid : uid ≠ "")
    (htok : loadTokens store uid = some tok)
    (hte : emailRegexTest te = true)
    (hmsg : 5 ≤ msgId.length) :
    inboxRoute store none (some uid) (some te) remote
      = { status := 500, error := some "Failed to fetch emails", details := some notInitFull }
    ∧ singleEmailRoute store none (some uid) (some te) msgId remote
      = { status := 500, error := some notInitShort }
    ∧ threadsRoute store none (some uid) (some te) remote
      = { status := 500, error := some notInitShort } := by
  have hteNe : te ≠ "" := by
    intro h
    subst h
    exact absurd hte (by decide)
  have hmsgNe : msgId ≠ "" := by
    intro h
    subst h
    simp at hmsg
  have hmsgLen : ¬ (msgId.length < 5) := by omega
  refine ⟨?_, ?_, ?_⟩
  · simp [inboxRoute, jsTruthy, huid, htok, hteNe, hte, getDelegatedEmails]
  · simp [singleEmailRoute, jsTruthy, huid, htok, hteNe, hte, hmsgNe, hmsgLen,
      getDelegatedEmail]
  · simp [threadsRoute, jsTruthy, huid, htok, hteNe, hte, getDelegatedThreads]

/-- C3 (witness): a stored user `u1`, target `a@b.c`, message id `abcde`, and
a remote that would even succeed — all three routes still 500 with the
not-initialized error. -/
theorem c3_delegated_routes_not_initialized_witness :
    inboxRoute (.good [("u1", { access_token := "a1" })]) none (some "u1") (some "a@b.c")
        (.ok "listing")
      = { status := 500, error := some "Failed to fetch emails", details := some notInitFull }
    ∧ singleEmailRoute (.good [("u1", { access_token := "a1" })]) none (some "u1")
        (some "a@b.c") "abcde" (.ok "emaildata")
      = { status := 500, error := some notInitShort }
    ∧ threadsRoute (.good [("u1", { access_token := "a1" })]) none (some "u1") (some "a@b.c")
        (.ok "threads")
      = { status := 500, error := some notInitShort } :=
  c3_delegated_routes_not_initialized (.good [("u1", { access_token := "a1" })])
    "u1" "a@b.c" "abcde" { access_token := "a1" } (.ok "listing")
    (by decide) rfl (by decide) (by decide)

/-- C6 (counterexample). The claim quantifies over the `listMessages`
operation, but in the BASIC variant (the duplicate server file, also cited by
the claim) a per-item detail-fetch failure is not caught individually:
listing 3 messages where the 2nd detail fetch throws makes the whole call
fail with the wrapped error instead of succeeding with a length-3 sequence. -/
theorem c6_counterexample :
    listEmailsBasic (.ok (some msgsSample)) fetchSample
      = .error "Failed to list emails: boom"
    ∧ (listEmailsBasic (.ok (some msgsSample)) fetchSample).isOk = false := by
  constructor
  · rfl
  · rfl

/-- C6 (amended). For the ENHANCED `listEmails` (main server file) the claim
holds: whenever the listing step succeeds, the overall call succeeds and
returns exactly one entry per listed id in the same order; an item whose
detail fetch throws is represented at its position by an error entry carrying
that id and the error message, and an item whose fetch succeeds by its full
summary. In the basic variant a per-item failure instead aborts the whole
call (see the counterexample). -/
theorem c6_listEmails_partial_failure (dateFmt : String → String)
    (msgs : List MsgRef) (fetch : String → Except String FetchedEmail) :
    listEmails dateFmt (.ok (some msgs)) fetch
      = .ok (msgs.map (listItemEntry dateFmt fetch))
    ∧ (msgs.map (listItemEntry dateFmt fetch)).length = msgs.length
    ∧ (∀ (i : Nat) (m : MsgRef), msgs[i]? = some m →
        (msgs.map (listItemEntry dateFmt fetch))[i]? = some (listItemEntry dateFmt fetch m))
    ∧ (∀ m e, fetch m.id = .error e → listItemEntry dateFmt fetch m = .failed m.id e)
    ∧ (∀ m d, fetch m.id = .ok d →
        listItemEntry dateFmt fetch m = .summary (mkSummary dateFmt m d)) := by
  refine ⟨rfl, List.length_map _ _, ?_, ?_, ?_⟩
  · intro i m hm
    rw [List.getElem?_map, hm]
    rfl
  · intro m e he
    simp [listItemEntry, he]
  · intro m d hd
    simp [listItemEntry, hd]

/-- C6 (witness): the scenario on the enhanced variant — a length-3 result
whose 2nd position is the error placeholder carrying the id and message,
positions 1 and 3 full summaries. -/
theorem c6_listEmails_partial_failure_witness :
    listEmails id (.ok (some msgsSample)) fetchSample
      = .ok (msgsSample.map (listItemEntry id fetchSample))
    ∧ (msgsSample.map (listItemEntry id fetchSample)).length = 3
    ∧ (msgsSample.map (listItemEntry id fetchSample))[1]?
        = some (.failed "m2" "boom")
    ∧ (msgsSample.map (listItemEntry id fetchSample))[0]?
        = some (.summary (mkSummary id ⟨"m1", "t1"⟩ fetchedSample))
    ∧ (msgsSample.map (listItemEntry id fetchSample))[2]?
        = some (.summary (mkSummary id ⟨"m3", "t3"⟩ fetchedSample)) := by
  refine ⟨(c6_listEmails_partial_failure id msgsSample fetchSample).1, ?_, ?_, ?_, ?_⟩
  · rw [(c6_listEmails_partial_failure id msgsSample fetchSample).2.1]; rfl
  · rw [(c6_listEmails_partial_failure id msgsSample fetchSample).2.2.1 1 ⟨"m2", "t2"⟩ rfl,
      (c6_listEmails_partial_failure id msgsSample fetchSample).2.2.2.1 ⟨"m2", "t2"⟩ "boom"
        (by rfl)]
  · rw [(c6_listEmails_partial_failure id msgsSample fetchSample).2.2.1 0 ⟨"m1", "t1"⟩ rfl,
      (c6_listEmails_partial_failure id msgsSample fetchSample).2.2.2.2 ⟨"m1", "t1"⟩
        fetchedSample (by rfl)]
  · rw [(c6_listEmails_partial_failure id msgsSample fetchSample).2.2.1 2 ⟨"m3", "t3"⟩ rfl,
      (c6_listEmails_partial_failure id msgsSample fetchSample).2.2.2.2 ⟨"m3", "t3"⟩
        fetchedSample (by rfl)]

/-! ### Base64 lemmas -/
theorem b64_index_char : ∀ n, n < 64 → b64Index (b64Char n) = n := by decide

theorem b64Char_ne_pad : ∀ n, n < 64 → b64Char n ≠ '=' := by decide

theorem b64_url_char_rt : ∀ n, n < 64 → b64UrlUnChar (b64UrlChar (b64Char n)) = b64Char n := by
  decide

theorem b64_url_pad_rt : b64UrlUnChar (b64UrlChar '=') = '=' := by decide

/-- Decoding inverts encoding on byte lists. -/
theorem base64_decode_encode :
    ∀ bs : List Nat, (∀ b ∈ bs, b < 256) → base64Decode (base64Encode bs) = bs
  | [], _ => rfl
  | [b1], h => by
    have hb1 : b1 < 256 := h b1 (by simp)
    have hn1 : b1 / 4 < 64 := by omega
    have hn2 : b1 % 4 * 16 < 64 := by omega
    have e1 := b64Char_ne_pad _ hn1
    have e2 := b64Char_ne_pad _ hn2
    have hf : (base64Encode [b1]).filter (fun c => c ≠ '=')
        = [b64Char (b1 / 4), b64Char (b1 % 4 * 16)] := by
      simp [base64Encode, e1, e2]
    unfold base64Decode
    rw [hf]
    simp only [base64DecodeGroups, b64_index_char _ hn1, b64_index_char _ hn2]
    congr 1
    omega
  | [b1, b2], h => by
    have hb1 : b1 < 256 := h b1 (by simp)
    have hb2 : b2 < 256 := h b2 (by simp)
    have hn1 : b1 / 4 < 64 := by omega
    have hn2 : b1 % 4 * 16 + b2 / 16 < 64 := by omega
    have hn3 : b2 % 16 * 4 < 64 := by omega
    have e1 := b64Char_ne_pad _ hn1
    have e2 := b64Char_ne_pad _ hn2
    have e3 := b64Char_ne_pad _ hn3
    have hf : (base64Encode [b1, b2]).filter (fun c => c ≠ '=')
        = [b64Char (b1 / 4), b64Char (b1 % 4 * 16 + b2 / 16), b64Char (b2 % 16 * 4)] := by
      simp [base64Encode, e1, e2, e3]
    unfold base64Decode
    rw [hf]
    simp only [base64DecodeGroups, b64_index_char _ hn1, b64_index_char _ hn2,
      b64_index_char _ hn3]
    congr 1
    · omega
    · congr 1
      omega
  | b1 :: b2 :: b3 :: rest, h => by
    have hb1 : b1 < 256 := h b1 (by simp)
    have hb2 : b2 < 256 := h b2 (by simp)
    have hb3 : b3 < 256 := h b3 (by simp)
    have hrest : ∀ b ∈ rest, b < 256 := fun b hb => h b (by simp [hb])
    have hn1 : b1 / 4 < 64 := by omega
    have hn2 : b1 % 4 * 16 + b2 / 16 < 64 := by omega
    have hn3 : b2 % 16 * 4 + b3 / 64 < 64 := by omega
    have hn4 : b3 % 64 < 64 := by omega
    have e1 := b64Char_ne_pad _ hn1
    have e2 := b64Char_ne_pad _ hn2
    have e3 := b64Char_ne_pad _ hn3
    have e4 := b64Char_ne_pad _ hn4
    have ih := base64_decode_encode rest hrest
    have hf : (base64Encode (b1 :: b2 :: b3 :: rest)).filter (fun c => c ≠ '=')
        = b64Char (b1 / 4) :: b64Char (b1 % 4 * 16 + b2 / 16) ::
            b64Char (b2 % 16 * 4 + b3 / 64) :: b64Char (b3 % 64) ::
            (base64Encode rest).filter (fun c => c ≠ '=') := by
      conv_lhs => rw [show base64Encode (b1 :: b2 :: b3 :: rest)
        = b64Char (b1 / 4) :: b64Char (b1 % 4 * 16 + b2 / 16) ::
            b64Char (b2 % 16 * 4 + b3 / 64) :: b64Char (b3 % 64) :: base64Encode rest from rfl]
      simp [e1, e2, e3, e4]
    unfold base64Decode at ih ⊢
    rw [hf]
    simp only [base64DecodeGroups, b64_index_char _ hn1, b64_index_char _ hn2,
      b64_index_char _ hn3, b64_index_char _ hn4]
    rw [ih]
    congr 1
    · omega
    · congr 1
      · omega
      · congr 1
        omega

/-- Every character of an encoded payload is `=` or an alphabet character. -/
theorem base64Encode_mem :
    ∀ bs : List Nat, (∀ b ∈ bs, b < 256) →
      ∀ c ∈ base64Encode bs, c = '=' ∨ ∃ n, n < 64 ∧ c = b64Char n
  | [], _ => by simp [base64Encode]
  | [b1], h => by
    have hb1 : b1 < 256 := h b1 (by simp)
    intro c hc
    simp [base64Encode] at hc
    rcases hc with hc | hc | hc
    · exact Or.inr ⟨b1 / 4, by omega, hc⟩
    · exact Or.inr ⟨b1 % 4 * 16, by omega, hc⟩
    · exact Or.inl hc
  | [b1, b2], h => by
    have hb1 : b1 < 256 := h b1 (by simp)
    have hb2 : b2 < 256 := h b2 (by simp)
    intro c hc
    simp [base64Encode] at hc
    rcases hc with hc | hc | hc | hc
    · exact Or.inr ⟨b1 / 4, by omega, hc⟩
    · exact Or.inr ⟨b1 % 4 * 16 + b2 / 16, by omega, hc⟩
    · exact Or.inr ⟨b2 % 16 * 4, by omega, hc⟩
    · exact Or.inl hc
  | b1 :: b2 :: b3 :: rest, h => by
    have hb1 : b1 < 256 := h b1 (by simp)
    have hb2 : b2 < 256 := h b2 (by simp)
    have hb3 : b3 < 256 := h b3 (by simp)
    have hrest : ∀ b ∈ rest, b < 256 := fun b hb => h b (by simp [hb])
    intro c hc
    rw [show base64Encode (b1 :: b2 :: b3 :: rest)
      = b64Char (b1 / 4) :: b64Char (b1 % 4 * 16 + b2 / 16) ::
          b64Char (b2 % 16 * 4 + b3 / 64) :: b64Char (b3 % 64) :: base64Encode rest
      from rfl] at hc
    simp only [List.mem_cons] at hc
    rcases hc with hc | hc | hc | hc | hc
    · exact Or.inr ⟨b1 / 4, by omega, hc⟩
    · exact Or.inr ⟨b1 % 4 * 16 + b2 / 16, by omega, hc⟩
    · exact Or.inr ⟨b2 % 16 * 4 + b3 / 64, by omega, hc⟩
    · exact Or.inr ⟨b3 % 64, by omega, hc⟩
    · exact base64Encode_mem rest hrest c hc

/-- Reversing the two character replacements recovers an encoded payload
exactly (the base64 alphabet and padding contain no `-` or `_`). -/
theorem reverseB64Url_toBase64Url (bs : List Nat) (h : ∀ b ∈ bs, b < 256) :
    reverseB64Url (toBase64Url (base64Encode bs)) = base64Encode bs := by
  unfold reverseB64Url toBase64Url
  rw [List.map_map]
  have hcong : ∀ c ∈ base64Encode bs, (b64UrlUnChar ∘ b64UrlChar) c = id c := by
    intro c hc
    rcases base64Encode_mem bs h c hc with hc2 | ⟨n, hn, hc2⟩
    · subst hc2; exact b64_url_pad_rt
    · subst hc2; exact b64_url_char_rt n hn
  rw [List.map_congr_left hcong, List.map_id]

theorem filter_map_un_all_pad (l : List Char) (h : ∀ c ∈ l, c = '=') :
    (l.map b64UrlUnChar).filter (fun c => c ≠ '=') = [] := by
  have hmap : l.map b64UrlUnChar = l := by
    have hcong : ∀ c ∈ l, b64UrlUnChar c = id c := by
      intro c hc
      rw [h c hc]
      rfl
    rw [List.map_congr_left hcong, List.map_id]
  rw [hmap]
  rw [List.filter_eq_nil_iff]
  intro a ha
  simp [h a ha]

/-- Stripping the trailing `=` padding does not change what decodes. -/
theorem base64Decode_reverse_strip (l : List Char) :
    base64Decode (reverseB64Url (stripPadding l)) = base64Decode (reverseB64Url l) := by
  have hsplit : l = stripPadding l ++ (l.reverse.takeWhile (fun c => c = '=')).reverse := by
    have h0 := List.takeWhile_append_dropWhile (fun c => decide (c = '=')) l.reverse
    calc l = l.reverse.reverse := (List.reverse_reverse l).symm
      _ = (l.reverse.takeWhile (fun c => decide (c = '='))
            ++ l.reverse.dropWhile (fun c => decide (c = '='))).reverse := by rw [h0]
      _ = (l.reverse.dropWhile (fun c => decide (c = '='))).reverse
            ++ (l.reverse.takeWhile (fun c => decide (c = '='))).reverse := by
          rw [List.reverse_append]
      _ = stripPadding l ++ (l.reverse.takeWhile (fun c => c = '=')).reverse := rfl
  have hpad : ∀ c ∈ (l.reverse.takeWhile (fun c => c = '=')).reverse, c = '=' := by
    intro c hc
    rw [List.mem_reverse] at hc
    have := List.mem_takeWhile_imp hc
    simpa using this
  conv_rhs => rw [hsplit]
  unfold base64Decode reverseB64Url
  rw [List.map_append, List.filter_append, filter_map_un_all_pad _ hpad, List.append_nil]

/-- A byte surviving the trim was in the original list. -/
theorem mem_jsTrimBytes (l : List Nat) (b : Nat) (hb : b ∈ jsTrimBytes l) : b ∈ l := by
  unfold jsTrimBytes at hb
  rw [List.mem_reverse] at hb
  have h1 := (List.dropWhile_sublist _).mem hb
  rw [List.mem_reverse] at h1
  exact (List.dropWhile_sublist _).mem h1

/-- Bytes of the main-path message, for ASCII field inputs. -/
theorem emailTextMain_bytes (toB subjB msgB : List Nat)
    (hto : ∀ b ∈ toB, b < 128) (hsub : ∀ b ∈ subjB, b < 128)
    (hmsg : ∀ b ∈ msgB, b < 128) :
    ∀ b ∈ emailTextMain toB subjB msgB, b < 256 := by
  intro b hb
  have hb2 := mem_jsTrimBytes _ _ hb
  simp only [List.mem_append] at hb2
  have l1 : ∀ b ∈ asciiBytes "To: ", b < 128 := by decide
  have l2 : ∀ b ∈ asciiBytes "\r\nContent-Type: text/plain; charset=\"UTF-8\"\r\nMIME-Version: 1.0\r\nSubject: ", b < 128 := by decide
  have l3 : ∀ b ∈ asciiBytes "\r\n\r\n", b < 128 := by decide
  rcases hb2 with ((((hb2 | hb2) | hb2) | hb2) | hb2) | hb2
  · exact lt_trans (l1 b hb2) (by omega)
  · exact lt_trans (hto b hb2) (by omega)
  · exact lt_trans (l2 b hb2) (by omega)
  · exact lt_trans (hsub b hb2) (by omega)
  · exact lt_trans (l3 b hb2) (by omega)
  · exact lt_trans (hmsg b hb2) (by omega)

/-- Bytes of the delegated-path message, for ASCII field inputs. -/
theorem emailTextDelegate_bytes (fromB toB subjB bodyB : List Nat)
    (hfrom : ∀ b ∈ fromB, b < 128) (hto : ∀ b ∈ toB, b < 128)
    (hsub : ∀ b ∈ subjB, b < 128) (hbody : ∀ b ∈ bodyB, b < 128) :
    ∀ b ∈ emailTextDelegate fromB toB subjB bodyB, b < 256 := by
  intro b hb
  unfold emailTextDelegate at hb
  simp only [List.mem_append] at hb
  have l1 : ∀ b ∈ asciiBytes "From: ", b < 128 := by decide
  have l2 : ∀ b ∈ asciiBytes "\nTo: ", b < 128 := by decide
  have l3 : ∀ b ∈ asciiBytes "\nContent-Type: text/html; charset=utf-8\nMIME-Version: 1.0\nSubject: ", b < 128 := by decide
  have l4 : ∀ b ∈ asciiBytes "\n\n", b < 128 := by decide
  rcases hb with ((((((hb | hb) | hb) | hb) | hb) | hb) | hb) | hb
  · exact lt_trans (l1 b hb) (by omega)
  · exact lt_trans (hfrom b hb) (by omega)
  · exact lt_trans (l2 b hb) (by omega)
  · exact lt_trans (hto b hb) (by omega)
  · exact lt_trans (l3 b hb) (by omega)
  · exact lt_trans (hsub b hb) (by omega)
  · exact lt_trans (l4 b hb) (by omega)
  · exact lt_trans (hbody b hb) (by omega)

/-- C8 (counterexample). The claim says decoding the payload (after reversing
the character replacements) recovers EXACTLY the message consisting of the
header lines, a blank line, and the body. In the main send path the code
applies `.trim()` to the whole joined message; with body a single space the
trailing whitespace (and with it the blank separator line) is trimmed away
before encoding, so the decoded payload differs from the claimed message. -/
theorem c8_counterexample :
    base64Decode (reverseB64Url (rawMain (asciiBytes "a") (asciiBytes "b") (asciiBytes " ")))
      ≠ asciiBytes "To: a" ++
          asciiBytes "\r\nContent-Type: text/plain; charset=\"UTF-8\"\r\nMIME-Version: 1.0\r\nSubject: " ++
          asciiBytes "b" ++ asciiBytes "\r\n\r\n" ++ asciiBytes " " := by
  decide

/-- C8 (amended). The raw payload is the base64 encoding — `+` replaced by `-`
and `/` by `_` — of the message the code actually builds: in the main path
the To/Content-Type/MIME-Version/Subject lines and the body joined with CRLF
with the WHOLE message then trimmed of leading/trailing whitespace; in the
delegated path an additional leading From line, LF separators, and the
trailing `=` padding additionally stripped. Decoding the payload after
reversing the replacements recovers exactly that (trimmed) message, for ASCII
inputs. -/
theorem c8_payload_decodes (toB subjB msgB fromB bodyB : List Nat)
    (hto : ∀ b ∈ toB, b < 128) (hsub : ∀ b ∈ subjB, b < 128)
    (hmsg : ∀ b ∈ msgB, b < 128) (hfrom : ∀ b ∈ fromB, b < 128)
    (hbody : ∀ b ∈ bodyB, b < 128) :
    rawMain toB subjB msgB = toBase64Url (base64Encode (emailTextMain toB subjB msgB))
    ∧ base64Decode (reverseB64Url (rawMain toB subjB msgB)) = emailTextMain toB subjB msgB
    ∧ rawDelegate fromB toB subjB bodyB
        = stripPadding (toBase64Url (base64Encode (emailTextDelegate fromB toB subjB bodyB)))
    ∧ base64Decode (reverseB64Url (rawDelegate fromB toB subjB bodyB))
        = emailTextDelegate fromB toB subjB bodyB := by
  have hT := emailTextMain_bytes toB subjB msgB hto hsub hmsg
  have hD := emailTextDelegate_bytes fromB toB subjB bodyB hfrom hto hsub hbody
  refine ⟨rfl, ?_, rfl, ?_⟩
  · rw [show rawMain toB subjB msgB
        = toBase64Url (base64Encode (emailTextMain toB subjB msgB)) from rfl]
    rw [reverseB64Url_toBase64Url _ hT]
    exact base64_decode_encode _ hT
  · rw [show rawDelegate fromB toB subjB bodyB
        = stripPadding (toBase64Url (base64Encode (emailTextDelegate fromB toB subjB bodyB)))
      from rfl]
    rw [base64Decode_reverse_strip]
    rw [reverseB64Url_toBase64Url _ hD]
    exact base64_decode_encode _ hD

/-- C8 (witness): concrete ASCII fields round-trip on both send paths. -/
theorem c8_payload_decodes_witness :
    base64Decode (reverseB64Url (rawMain (asciiBytes "a@b.c") (asciiBytes "Hi")
        (asciiBytes "Hello")))
      = emailTextMain (asciiBytes "a@b.c") (asciiBytes "Hi") (asciiBytes "Hello")
    ∧ base64Decode (reverseB64Url (rawDelegate (asciiBytes "d@e.f") (asciiBytes "a@b.c")
        (asciiBytes "Hi") (asciiBytes "Hello")))
      = emailTextDelegate (asciiBytes "d@e.f") (asciiBytes "a@b.c") (asciiBytes "Hi")
          (asciiBytes "Hello") :=
  ⟨(c8_payload_decodes (asciiBytes "a@b.c") (asciiBytes "Hi") (asciiBytes "Hello")
      (asciiBytes "d@e.f") (asciiBytes "Hello") (by decide) (by decide) (by decide)
      (by decide) (by decide)).2.1,
   (c8_payload_decodes (asciiBytes "a@b.c") (asciiBytes "Hi") (asciiBytes "Hello")
      (asciiBytes "d@e.f") (asciiBytes "Hello") (by decide) (by decide) (by decide)
      (by decide) (by decide)).2.2.2⟩
